import Mathlib

/-!
Shallow embedding of `pkg/standalone/standalone.go` from the dapr-cli
bootstrapper, together with proofs of the specification's claims about it.

The Go code is embedded as pure Lean functions.  External effects
(process exit statuses, network responses, filesystem operations) are
passed in as explicit oracle parameters, and performed side effects
(files written, commands invoked) are returned as explicit fields of the
result, so every function here is executable and decidable on concrete
inputs.
-/

namespace Standalone

/-- Kind of a filesystem error, as classified by Go's `os.IsExist` /
`os.IsNotExist` predicates: `exist` wraps `fs.ErrExist`, `notExist`
wraps `fs.ErrNotExist`, `other` is any other filesystem error. -/
inductive FsErrKind where
  | exist
  | notExist
  | other
deriving DecidableEq, Repr

/-- Model of a Go `error` value as produced in this program.
`exitError code` models `*exec.ExitError` with the given exit code
(its `Error()` message in Go is `"exit status <code>"` for codes
produced by a normally-exited process); `fsError kind msg` models a
filesystem error classified by `os.IsExist`/`os.IsNotExist`;
`errorString msg` models any other error value (`fmt.Errorf` results,
spawn failures, network errors) carrying its message. -/
inductive GoErr where
  | exitError (code : Int)
  | fsError (kind : FsErrKind) (msg : String)
  | errorString (msg : String)
deriving DecidableEq, Repr

/-- The `Error()` message of a modelled Go error. -/
def GoErr.message : GoErr → String
  | .exitError code => "exit status " ++ toString code
  | .fsError _ msg => msg
  | .errorString msg => msg

/-- Embedding of `isContainerRunError` (standalone.go:127-133): true iff
the error is an `*exec.ExitError` whose exit code is 125. -/
def isContainerRunError : GoErr → Bool
  | .exitError code => code == 125
  | _ => false

/-- Embedding of `parseDockerError` (standalone.go:114-125): for an
`*exec.ExitError` with code 125 or 127 it builds a component-specific
message; every other error (other exit codes, non-exit errors) is
returned unchanged. -/
def parseDockerError (component : String) (err : GoErr) : GoErr :=
  match err with
  | .exitError code =>
      if code == 125 then
        .errorString ("Failed to launch " ++ component ++ ". Is it already running?")
      else if code == 127 then
        .errorString ("Failed to launch " ++ component ++ ". Make sure Docker is installed and running")
      else
        err
  | _ => err

/-- Shared body of the two container-launcher tasks (`runRedis`,
standalone.go:101-112, and `runPlacementService`, standalone.go:135-153):
given the result of the `docker run` invocation (`none` = the command
succeeded), produce the single outcome the task sends on the error
channel.  `none` means the task reports success. -/
def launcherOutcome (component : String) (cmdErr : Option GoErr) : Option GoErr :=
  match cmdErr with
  | none => none
  | some err =>
      if isContainerRunError err then none
      else some (parseDockerError component err)

/-- Outcome sent by `runRedis` (standalone.go:101-112) as a function of
the `docker run` result. -/
def runRedisOutcome (cmdErr : Option GoErr) : Option GoErr :=
  launcherOutcome "Redis state store" cmdErr

/-- Outcome sent by `runPlacementService` (standalone.go:135-153) as a
function of the `docker run` result. -/
def runPlacementServiceOutcome (cmdErr : Option GoErr) : Option GoErr :=
  launcherOutcome "placement service" cmdErr

/-- Embedding of `Init`'s draining loop (standalone.go:63-77) over the
sequence of outcomes in channel-read order.  Returns the error `Init`
returns together with the number of values received from the channel.
An empty list models the channel being closed; a non-nil outcome makes
the loop return at once without receiving further values. -/
def drainInit : List (Option GoErr) → Option GoErr × Nat
  | [] => (none, 0)
  | none :: rest =>
      let r := drainInit rest
      (r.1, r.2 + 1)
  | some e :: _ => (some e, 1)

/-- Does the character list `s` start with the character list `pat`?
Helper for the embedding of Go's `strings.Contains`. -/
def listStartsWith : List Char → List Char → Bool
  | _, [] => true
  | [], _ :: _ => false
  | a :: as, b :: bs => a == b && listStartsWith as bs

/-- Does the character list `s` contain `pat` as a contiguous substring? -/
def listContainsSub : List Char → List Char → Bool
  | [], pat => pat.isEmpty
  | a :: as, pat => listStartsWith (a :: as) pat || listContainsSub as pat

/-- Embedding of Go `strings.Contains s sub`: substring containment. -/
def goContains (s sub : String) : Bool :=
  listContainsSub s.toList sub.toList

/-- Embedding of Go `strings.ToLower` (the strings appearing in this
program are ASCII, for which per-character lowering is exact). -/
def goToLower (s : String) : String :=
  String.mk (s.data.map Char.toLower)

/-- Embedding of Go `path.Join dir name` as used here: both arguments are
non-empty and cleaning never applies, so it is `dir ++ "/" ++ name`. -/
def goPathJoin (dir name : String) : String :=
  dir ++ "/" ++ name

/-- Embedding of `path/filepath.Base` for the Unix paths used here: the
last slash-separated element. -/
def goFilepathBase (p : String) : String :=
  (p.splitOn "/").getLastD p

/-- The possible results of the `os.Stat(filepath)` call in
`downloadFile` (standalone.go:281).  Per the Go standard library,
`os.Stat` returns a nil error when the file exists and an error
satisfying `os.IsNotExist` (or some other I/O error), never one
satisfying `os.IsExist`. -/
inductive StatOutcome where
  | found
  | errNotExist
  | errOther (msg : String)
deriving DecidableEq, Repr

/-- The error value `os.Stat` yields for each outcome. -/
def statErr : StatOutcome → Option GoErr
  | .found => none
  | .errNotExist => some (.fsError .notExist "file does not exist")
  | .errOther msg => some (.fsError .other msg)

/-- Embedding of Go `os.IsExist(err)`: true iff the error wraps
`fs.ErrExist`; false on nil and on every other error (including
`fs.ErrNotExist`). -/
def osIsExist : Option GoErr → Bool
  | some (.fsError .exist _) => true
  | _ => false

/-- Oracle for the external effects of `downloadFile`: the stat result
for the destination path, and the results of `http.Get`, `os.Create`
and `io.Copy` (`none` = the call succeeded). -/
structure DlEnv where
  statOutcome : StatOutcome
  getRes : Option GoErr
  createRes : Option GoErr
  copyRes : Option GoErr
deriving DecidableEq, Repr

/-- Result of `downloadFile`: the returned path and error, plus the
performed effects — whether the network GET was issued (`didGet`) and
whether the destination file was created/written (`wrote`). -/
structure DlResult where
  path : String
  err : Option GoErr
  didGet : Bool
  wrote : Bool
deriving DecidableEq, Repr

/-- Embedding of `downloadFile` (standalone.go:276-304): derive the
destination file name from the URL, stat the destination, return early
iff `os.IsExist` holds of the stat error, otherwise GET the URL, create
the destination file and stream the body into it. -/
def downloadFile (dir url : String) (env : DlEnv) : DlResult :=
  let tokens := url.splitOn "/"
  let fileName := tokens.getLastD ""
  let filepath := goPathJoin dir fileName
  if osIsExist (statErr env.statOutcome) then
    ⟨"", none, false, false⟩
  else
    match env.getRes with
    | some e => ⟨"", some e, true, false⟩
    | none =>
        match env.createRes with
        | some e => ⟨"", some e, true, false⟩
        | none =>
            match env.copyRes with
            | some e => ⟨"", some e, true, true⟩
            | none => ⟨filepath, none, true, true⟩

/-- A zip archive entry: its name and its mode bits (`file.Mode()`). -/
structure ZipEntry where
  name : String
  mode : Nat
deriving DecidableEq, Repr

/-- Oracle for `extractFile`'s per-entry effects on the entry it
processes: results of `file.Open()`, `os.OpenFile` and `io.Copy`. -/
structure ExtractEnv where
  openRes : Option GoErr
  createRes : Option GoErr
  copyRes : Option GoErr
deriving DecidableEq, Repr

/-- Result of `extractFile`: the returned path and error, and the list
of output files opened for writing together with the mode bits passed
to `os.OpenFile`. -/
structure ExtractResult where
  path : String
  err : Option GoErr
  writes : List (String × Nat)
deriving DecidableEq, Repr

/-- Embedding of `extractFile` (standalone.go:207-244).  The `archive`
argument is the result of `zip.OpenReader filepath`: an error, or the
archive's entry list.  The source's `for` loop returns inside its first
iteration on every path (error returns, or the success return at line
240), so only the first entry is ever processed; an empty entry list
falls through to the final `return "", nil`. -/
def extractFile (archive : Except GoErr (List ZipEntry)) (targetDir : String)
    (env : ExtractEnv) : ExtractResult :=
  match archive with
  | .error e => ⟨"", some e, []⟩
  | .ok [] => ⟨"", none, []⟩
  | .ok (file :: _) =>
      match env.openRes with
      | some e => ⟨"", some e, []⟩
      | none =>
          let extractedFilePath := goPathJoin targetDir file.name
          match env.createRes with
          | some e => ⟨"", some e, []⟩
          | none =>
              match env.copyRes with
              | some e => ⟨"", some e, [(extractedFilePath, file.mode)]⟩
              | none => ⟨extractedFilePath, none, [(extractedFilePath, file.mode)]⟩

/-- Oracle for `moveFileToPath`'s external effects: the current value of
the `PATH` environment variable, the result of the `SETX` invocation,
and the results of `ioutil.ReadFile` / `ioutil.WriteFile` on the Unix
branch. -/
structure MoveEnv where
  pathEnv : String
  setxRes : Option GoErr
  readRes : Except GoErr String
  writeRes : Option GoErr
deriving Repr

/-- Result of `moveFileToPath`: the returned path and error, whether the
`SETX` PATH-mutation command was invoked, and the destination file
written on the Unix branch (if any). -/
structure MoveResult where
  path : String
  err : Option GoErr
  setxCalled : Bool
  unixWrote : Option String
deriving DecidableEq, Repr

/-- Embedding of `moveFileToPath` (standalone.go:246-274).  On
`windows`, `SETX` is invoked only when the lower-cased `PATH` does not
contain the lower-cased install directory, and the hardcoded destination
string is returned.  On other targets the file's bytes are copied to
`/usr/local/bin/<base name>`. -/
def moveFileToPath (goos : String) (env : MoveEnv) (filepath : String) : MoveResult :=
  let fileName := goFilepathBase filepath
  if goos == "windows" then
    let p := env.pathEnv
    if !(goContains (goToLower p) (goToLower "c:\\actions")) then
      match env.setxRes with
      | some e => ⟨"", some e, true, none⟩
      | none => ⟨"c:\\actions\\actionsrt.exe", none, true, none⟩
    else
      ⟨"c:\\actions\\actionsrt.exe", none, false, none⟩
  else
    let destFilePath := goPathJoin "/usr/local/bin" fileName
    match env.readRes with
    | .error e => ⟨"", some e, false, none⟩
    | .ok _ =>
        match env.writeRes with
        | some e => ⟨"", some e, false, none⟩
        | none => ⟨destFilePath, none, false, some destFilePath⟩

/-- Embedding of `makeExecutable` (standalone.go:186-195): on non-Windows
targets, the result of the `os.Chmod` call; a no-op on Windows. -/
def makeExecutable (goos : String) (chmodRes : Option GoErr) : Option GoErr :=
  if goos != "windows" then chmodRes else none

/-- Oracle for all external effects of the `installActionsBinary` task. -/
structure InstallEnv where
  dl : DlEnv
  archive : Except GoErr (List ZipEntry)
  ex : ExtractEnv
  mv : MoveEnv
  chmodRes : Option GoErr
deriving Repr

/-- Result of the `installActionsBinary` task: the single outcome it
sends on the error channel, and the argument it passed to
`moveFileToPath` (when the relocation stage was reached). -/
structure InstallResult where
  outcome : Option GoErr
  moveArg : Option String
deriving DecidableEq, Repr

/-- Embedding of the constant `baseDownloadURL` (standalone.go:23). -/
def baseDownloadURL : String :=
  "https://actionsreleases.blob.core.windows.net/release"

/-- Embedding of `installActionsBinary` (standalone.go:155-184): the
four-stage pipeline download → extract → relocate → make-executable,
each stage short-circuiting with a stage-specific wrapping message. -/
def installActionsBinary (goos goarch dir version : String) (env : InstallEnv) :
    InstallResult :=
  let actionsURL := baseDownloadURL ++ "/" ++ version ++ "/actionsrt_" ++ goos
    ++ "_" ++ goarch ++ ".zip"
  let dl := downloadFile dir actionsURL env.dl
  match dl.err with
  | some e => ⟨some (.errorString ("Error downloading actions binary: " ++ e.message)), none⟩
  | none =>
      let ex := extractFile env.archive dir env.ex
      match ex.err with
      | some e => ⟨some (.errorString ("Error extracting actions binary: " ++ e.message)), none⟩
      | none =>
          let mv := moveFileToPath goos env.mv ex.path
          match mv.err with
          | some e =>
              ⟨some (.errorString ("Error moving actions binary to path: " ++ e.message)),
               some ex.path⟩
          | none =>
              match makeExecutable goos env.chmodRes with
              | some e =>
                  ⟨some (.errorString ("Error making actions binary executable: " ++ e.message)),
                   some ex.path⟩
              | none => ⟨none, some ex.path⟩

/-- State of the orchestrator goroutine of `Init`: still in the draining
`for range` loop, or returned with a result. -/
inductive Orch where
  | draining
  | returned (res : Option GoErr)
deriving DecidableEq, Repr

/-- Global state of a run of `Init`'s concurrent phase: for each task,
whether its (unbuffered) channel send has completed — after which its
deferred `wg.Done()` runs and the goroutine finishes — and the
orchestrator's state. -/
structure InitState where
  sent : List Bool
  orch : Orch
deriving DecidableEq, Repr

/-- Initial state: no task has sent, the orchestrator is draining. -/
def initState (n : Nat) : InitState :=
  ⟨List.replicate n false, .draining⟩

/-- Effect on the orchestrator of receiving one outcome in the draining
loop (standalone.go:63-70): a nil outcome continues the loop, a non-nil
outcome makes `Init` return it at once. -/
def recvOrch (o : Option GoErr) : Orch :=
  match o with
  | none => .draining
  | some e => .returned (some e)

/-- Small-step semantics of `Init`'s concurrent phase
(standalone.go:32-77), parameterized by each task's outcome.  The error
channel is unbuffered (`make(chan error)`), so a task's send completes
only as a rendezvous with the orchestrator's receive in the draining
loop.  The closer goroutine (standalone.go:58-61) closes the channel
once every task has sent and signalled the `WaitGroup`, which ends the
loop and makes `Init` return nil.  No other transition exists: there is
no cancellation, and nothing else ever receives from the channel. -/
inductive InitStep (outcomes : List (Option GoErr)) : InitState → InitState → Prop where
  | rendezvous (s : InitState) (i : Nat) (hi : i < outcomes.length)
      (hpend : s.sent.getD i true = false) (horch : s.orch = .draining) :
      InitStep outcomes s ⟨s.sent.set i true, recvOrch (outcomes.getD i none)⟩
  | closeChan (s : InitState) (hall : ∀ b ∈ s.sent, b = true)
      (horch : s.orch = .draining) :
      InitStep outcomes s ⟨s.sent, .returned none⟩

/-- `os.Stat` never yields an error satisfying `os.IsExist`, whatever the
state of the filesystem. -/
theorem osIsExist_statErr (o : StatOutcome) : osIsExist (statErr o) = false := by
  cases o <;> rfl

/-- When the GET, create and copy calls succeed, `downloadFile` returns
no error. -/
theorem downloadFile_err_none (dir url : String) (env : DlEnv)
    (hg : env.getRes = none) (hc : env.createRes = none) (hcp : env.copyRes = none) :
    (downloadFile dir url env).err = none := by
  simp [downloadFile, osIsExist_statErr, hg, hc, hcp]

/-- C1: if some task delivers a non-nil error on the outcome channel,
`Init` returns exactly the first non-nil error in channel-read order
(here: the read-order list is `pre ++ some e :: post` with every element
of `pre` nil), and it performs exactly `pre.length + 1` channel reads —
it returns immediately after reading the error, without draining the
outcomes in `post` of the remaining tasks. -/
theorem init_failfast_first_error (pre post : List (Option GoErr)) (e : GoErr)
    (hpre : ∀ o ∈ pre, o = none) :
    drainInit (pre ++ some e :: post) = (some e, pre.length + 1) := by
  induction pre with
  | nil => rfl
  | cons o rest ih =>
      have ho : o = none := hpre o (List.mem_cons_self _ _)
      subst ho
      have h2 : ∀ x ∈ rest, x = none := fun x hx => hpre x (List.mem_cons_of_mem _ hx)
      simp [drainInit, ih h2]

/-- Witness for C1: with read order `[nil, error, nil]`, `Init` returns
the error after two reads. -/
theorem init_failfast_first_error_witness :
    drainInit [none, some (GoErr.errorString "oops"), none] =
      (some (GoErr.errorString "oops"), 2) :=
  init_failfast_first_error [none] [none] (GoErr.errorString "oops") (by decide)

/-- C2: `Init` returns no error iff every outcome in the channel-read
list is nil, and in the all-nil case the channel is drained exactly once
per task (`l.length` reads). -/
theorem init_success_iff_all_nil (l : List (Option GoErr)) :
    ((drainInit l).1 = none ↔ ∀ o ∈ l, o = none) ∧
    ((∀ o ∈ l, o = none) → (drainInit l).2 = l.length) := by
  induction l with
  | nil => simp [drainInit]
  | cons o rest ih =>
      cases o with
      | none =>
          refine ⟨?_, ?_⟩
          · simpa [drainInit] using ih.1
          · intro h
            have := ih.2 (fun x hx => h x (List.mem_cons_of_mem _ hx))
            simp [drainInit, this]
      | some e => simp [drainInit]

/-- Witness for C2: three nil outcomes give a nil result after exactly
three reads. -/
theorem init_success_iff_all_nil_witness :
    (drainInit [none, none, none]).1 = none ∧ (drainInit [none, none, none]).2 = 3 := by
  have h := init_success_iff_all_nil [none, none, none]
  exact ⟨h.1.mpr (by decide), h.2 (by decide)⟩

/-- C3: both launcher tasks send nil on the outcome channel when the
`docker run` invocation exits with code 125 (the generic runtime error,
interpreted as "already running"): the failure is never surfaced. -/
theorem launcher_tolerates_already_running :
    runRedisOutcome (some (GoErr.exitError 125)) = none ∧
    runPlacementServiceOutcome (some (GoErr.exitError 125)) = none := by
  exact ⟨rfl, rfl⟩

/-- C4: at exit code 127 a launcher task reports the specific
"Make sure Docker is installed and running" message, and that message
differs from the message of the error reported at any other non-special
exit code (where the raw `exit status k` error is passed through). -/
theorem launcher_127_distinct_message (component : String) (k : Int)
    (h125 : k ≠ 125) (h127 : k ≠ 127) :
    launcherOutcome component (some (GoErr.exitError 127)) =
      some (GoErr.errorString ("Failed to launch " ++ component
        ++ ". Make sure Docker is installed and running")) ∧
    ∀ e, launcherOutcome component (some (GoErr.exitError k)) = some e →
      e.message ≠ ("Failed to launch " ++ component
        ++ ". Make sure Docker is installed and running") := by
  refine ⟨rfl, ?_⟩
  intro e he
  have hek : e = GoErr.exitError k := by
    simp [launcherOutcome, isContainerRunError, parseDockerError, h125, h127] at he
    exact he.symm
  subst hek
  show ("exit status " ++ toString k) ≠ _
  intro h
  have hd := congrArg String.data h
  rw [String.data_append, String.data_append, String.data_append] at hd
  simp [String.data] at hd

/-- Witness for C4 at the Redis launcher with other exit code 1. -/
theorem launcher_127_distinct_message_witness :
    launcherOutcome "Redis state store" (some (GoErr.exitError 127)) =
      some (GoErr.errorString ("Failed to launch " ++ "Redis state store"
        ++ ". Make sure Docker is installed and running")) ∧
    ∀ e, launcherOutcome "Redis state store" (some (GoErr.exitError 1)) = some e →
      e.message ≠ ("Failed to launch " ++ "Redis state store"
        ++ ". Make sure Docker is installed and running") :=
  launcher_127_distinct_message "Redis state store" 1 (by decide) (by decide)

/-- C5 counterexample: at exit code 1 the Redis launcher reports the raw
`exit status 1` error unchanged, whose message does not name the failing
component at all. -/
theorem launcher_generic_counterexample :
    runRedisOutcome (some (GoErr.exitError 1)) = some (GoErr.exitError 1) ∧
    goContains (GoErr.message (GoErr.exitError 1)) "Redis state store" = false := by
  exact ⟨rfl, by decide⟩

/-- C5 amended: for any exit code other than 125 and 127, and for any
process-spawn error, both launcher tasks pass the underlying error
through unchanged (no generic wrapping, no component name added). -/
theorem launcher_other_error_passthrough (k : Int) (h125 : k ≠ 125) (h127 : k ≠ 127)
    (msg : String) :
    runRedisOutcome (some (GoErr.exitError k)) = some (GoErr.exitError k) ∧
    runPlacementServiceOutcome (some (GoErr.exitError k)) = some (GoErr.exitError k) ∧
    runRedisOutcome (some (GoErr.errorString msg)) = some (GoErr.errorString msg) ∧
    runPlacementServiceOutcome (some (GoErr.errorString msg)) = some (GoErr.errorString msg) := by
  refine ⟨?_, ?_, rfl, rfl⟩ <;>
    simp [runRedisOutcome, runPlacementServiceOutcome, launcherOutcome,
      isContainerRunError, parseDockerError, h125, h127]

/-- Witness for the amended C5 at exit code 1 and a spawn-error message. -/
theorem launcher_other_error_passthrough_witness :
    runRedisOutcome (some (GoErr.exitError 1)) = some (GoErr.exitError 1) ∧
    runPlacementServiceOutcome (some (GoErr.exitError 1)) = some (GoErr.exitError 1) ∧
    runRedisOutcome (some (GoErr.errorString "spawn failed")) =
      some (GoErr.errorString "spawn failed") ∧
    runPlacementServiceOutcome (some (GoErr.errorString "spawn failed")) =
      some (GoErr.errorString "spawn failed") :=
  launcher_other_error_passthrough 1 (by decide) (by decide) "spawn failed"

/-- C6: the skip-if-already-downloaded early return of `downloadFile` is
dead code: for every directory, URL and environment — in particular when
the destination file already exists, so `os.Stat` succeeds — the
network GET is always issued, and whenever the GET and the file creation
succeed the destination file is written. -/
theorem downloadFile_skip_branch_dead (dir url : String) (env : DlEnv) :
    (downloadFile dir url env).didGet = true ∧
    (env.getRes = none → env.createRes = none →
      (downloadFile dir url env).wrote = true) := by
  refine ⟨?_, ?_⟩
  · simp only [downloadFile, osIsExist_statErr]
    cases env.getRes <;> cases env.createRes <;> cases env.copyRes <;> simp
  · intro hg hc
    simp only [downloadFile, osIsExist_statErr, hg, hc]
    cases env.copyRes <;> simp

/-- Witness for C6: the destination file exists (`stat` succeeds), yet
the GET is issued and the file is rewritten. -/
theorem downloadFile_skip_branch_dead_witness :
    (downloadFile "/home/u/.actions" "https://host/release/a.zip"
      ⟨.found, none, none, none⟩).didGet = true ∧
    (downloadFile "/home/u/.actions" "https://host/release/a.zip"
      ⟨.found, none, none, none⟩).wrote = true := by
  have h := downloadFile_skip_branch_dead "/home/u/.actions" "https://host/release/a.zip"
    ⟨.found, none, none, none⟩
  exact ⟨h.1, h.2 rfl rfl⟩

/-- C7: on an archive with entries `A :: B :: rest`, `extractFile`
(when the per-entry operations succeed) writes exactly one file — `A`'s
path with `A`'s mode bits — and returns `A`'s extracted path; moreover,
under every environment whatsoever, anything it writes is `A`'s path
with `A`'s mode, so `B` (and every later entry) is never written. -/
theorem extractFile_first_entry_only (A B : ZipEntry) (rest : List ZipEntry)
    (targetDir : String) (env : ExtractEnv)
    (ho : env.openRes = none) (hc : env.createRes = none) (hcp : env.copyRes = none) :
    extractFile (.ok (A :: B :: rest)) targetDir env =
      ⟨goPathJoin targetDir A.name, none, [(goPathJoin targetDir A.name, A.mode)]⟩ ∧
    ∀ envAny : ExtractEnv,
      ∀ w ∈ (extractFile (.ok (A :: B :: rest)) targetDir envAny).writes,
        w = (goPathJoin targetDir A.name, A.mode) := by
  refine ⟨by simp [extractFile, ho, hc, hcp], ?_⟩
  intro envAny w hw
  revert hw
  cases h1 : envAny.openRes <;> cases h2 : envAny.createRes <;> cases h3 : envAny.copyRes <;>
    simp [extractFile, h1, h2, h3]

/-- Witness for C7 on a concrete two-entry archive. -/
theorem extractFile_first_entry_only_witness :
    extractFile (.ok [⟨"actionsrt", 493⟩, ⟨"extra", 420⟩]) "/home/u/.actions"
        ⟨none, none, none⟩ =
      ⟨goPathJoin "/home/u/.actions" "actionsrt", none,
        [(goPathJoin "/home/u/.actions" "actionsrt", 493)]⟩ ∧
    ∀ envAny : ExtractEnv,
      ∀ w ∈ (extractFile (.ok [⟨"actionsrt", 493⟩, ⟨"extra", 420⟩]) "/home/u/.actions"
        envAny).writes,
        w = (goPathJoin "/home/u/.actions" "actionsrt", 493) :=
  extractFile_first_entry_only ⟨"actionsrt", 493⟩ ⟨"extra", 420⟩ [] "/home/u/.actions"
    ⟨none, none, none⟩ rfl rfl rfl

/-- C8: on the Windows target, when the lower-cased `PATH` already
contains the lower-cased install directory, `moveFileToPath` does not
invoke `SETX` (so `PATH` is left unchanged) and still returns the
hardcoded destination. -/
theorem moveFileToPath_windows_idempotent (env : MoveEnv) (fp : String)
    (h : goContains (goToLower env.pathEnv) (goToLower "c:\\actions") = true) :
    (moveFileToPath "windows" env fp).setxCalled = false ∧
    (moveFileToPath "windows" env fp).path = "c:\\actions\\actionsrt.exe" := by
  simp [moveFileToPath, h]

/-- Witness for C8: `PATH` contains the install directory in different
case, and `SETX` is not invoked. -/
theorem moveFileToPath_windows_idempotent_witness :
    (moveFileToPath "windows" ⟨"C:\\Go\\bin;C:\\ACTIONS", none, .ok "", none⟩
      "c:\\actions\\actionsrt.exe").setxCalled = false ∧
    (moveFileToPath "windows" ⟨"C:\\Go\\bin;C:\\ACTIONS", none, .ok "", none⟩
      "c:\\actions\\actionsrt.exe").path = "c:\\actions\\actionsrt.exe" :=
  moveFileToPath_windows_idempotent ⟨"C:\\Go\\bin;C:\\ACTIONS", none, .ok "", none⟩
    "c:\\actions\\actionsrt.exe" (by decide)

/-- C9: after the orchestrator has returned an error, a sibling task that
has not yet sent its outcome is stuck forever: from the initial state of
a two-task run whose first-delivered outcome is an error, the state in
which `Init` has returned that error is reachable, no further step is
possible from it (the send on the unbuffered channel has no receiver, so
the task never completes nor signals the `WaitGroup`), and the second
task has not sent. -/
theorem init_error_return_leaks_pending_task :
    Relation.ReflTransGen
      (InitStep [some (GoErr.errorString "download failed"), none])
      (initState 2)
      ⟨[true, false], .returned (some (GoErr.errorString "download failed"))⟩ ∧
    (∀ t, ¬ InitStep [some (GoErr.errorString "download failed"), none]
      ⟨[true, false], .returned (some (GoErr.errorString "download failed"))⟩ t) ∧
    ([true, false] : List Bool).getD 1 true = false := by
  refine ⟨?_, ?_, rfl⟩
  · exact Relation.ReflTransGen.single
      (InitStep.rendezvous (initState 2) 0 (by decide) (by decide) rfl)
  · intro t ht
    cases ht with
    | rendezvous i hi hpend horch => exact nomatch horch
    | closeChan hall horch => exact nomatch horch

/-- C10: on an archive with zero entries, `extractFile` returns an empty
path and no error, and the installer task — its download having
succeeded — proceeds to the relocation stage with the empty string as
the source path. -/
theorem extractFile_empty_archive_success (targetDir : String) (env : ExtractEnv)
    (goos goarch dir version : String) (ienv : InstallEnv)
    (harch : ienv.archive = .ok [])
    (hget : ienv.dl.getRes = none) (hcreate : ienv.dl.createRes = none)
    (hcopy : ienv.dl.copyRes = none) :
    extractFile (.ok []) targetDir env = ⟨"", none, []⟩ ∧
    (installActionsBinary goos goarch dir version ienv).moveArg = some "" := by
  refine ⟨rfl, ?_⟩
  have hdl := downloadFile_err_none dir
    (baseDownloadURL ++ "/" ++ version ++ "/actionsrt_" ++ goos ++ "_" ++ goarch ++ ".zip")
    ienv.dl hget hcreate hcopy
  cases hmv : (moveFileToPath goos ienv.mv "").err <;>
    cases hch : makeExecutable goos ienv.chmodRes <;>
      simp [installActionsBinary, hdl, harch, extractFile, hmv, hch]

/-- Witness for C10 on a concrete empty archive and a Linux install
environment. -/
theorem extractFile_empty_archive_success_witness :
    extractFile (.ok []) "/home/u/.actions" ⟨none, none, none⟩ = ⟨"", none, []⟩ ∧
    (installActionsBinary "linux" "amd64" "/home/u/.actions" "0.3.0"
      ⟨⟨.errNotExist, none, none, none⟩, .ok [], ⟨none, none, none⟩,
        ⟨"", none, .ok "", none⟩, none⟩).moveArg = some "" :=
  extractFile_empty_archive_success "/home/u/.actions" ⟨none, none, none⟩
    "linux" "amd64" "/home/u/.actions" "0.3.0"
    ⟨⟨.errNotExist, none, none, none⟩, .ok [], ⟨none, none, none⟩,
      ⟨"", none, .ok "", none⟩, none⟩
    rfl rfl rfl rfl

end Standalone
